import Mathlib

/-!
Verification of the `ecmwf-api-futures` repository against its
natural-language specification.

The development shallowly embeds the Python module
`ecmwfapi_futures/api.py`.  Python dictionaries over string keys and
string values are modelled as insertion-ordered association lists with
unique keys (`Dict`); Python exceptions are modelled by the `PyError`
kind that the raising statement produces; wall-clock instants are
modelled as natural numbers (microseconds, `datetime.utcnow`); the
mutable future object is modelled by the `APIRequestFuture` record and
its mutating methods by pure state-passing functions.  Status-change
callbacks are opaque Python objects; invoking them is modelled by an
emitted event list `(callback, task-argument)` in invocation order.
File I/O performed by `_write_log` mirrors the in-memory `messages`
list and is not modelled beyond that list.
-/

/-- Python `str.startswith`, over the character sequence. -/
def strStartsWith (s p : String) : Bool :=
  p.data.isPrefixOf s.data

/-- Python slicing `s[n:]`, over the character sequence. -/
def strDrop (s : String) (n : Nat) : String :=
  String.mk (s.data.drop n)

/-- ASCII whitespace stripped by Python `str.strip()`. -/
def isPySpace (c : Char) : Bool :=
  c == ' ' || c == '\t' || c == '\n' || c == '\r' || c == '\x0b' || c == '\x0c'

/-- Python `str.strip()` (ASCII whitespace). -/
def strTrim (s : String) : String :=
  String.mk (((s.data.dropWhile isPySpace).reverse.dropWhile isPySpace).reverse)

/-- A Python `dict` with string keys and values: an insertion-ordered
association list.  Dictionaries reachable from the code have unique
keys, so first-match lookup agrees with Python lookup. -/
abbrev Dict := List (String × String)

/-- Python `k in d` and `d[k]` combined: the value stored under `k`. -/
def dictGet (d : Dict) (k : String) : Option String :=
  (d.find? (fun kv => kv.1 == k)).map (fun kv => kv.2)

/-- Python `k in d`. -/
def dictMember (d : Dict) (k : String) : Bool :=
  (dictGet d k).isSome

/-- Python `d[k] = v`: replace in place when the key exists, else append. -/
def dictSet (d : Dict) (k v : String) : Dict :=
  if dictMember d k then d.map (fun kv => if kv.1 == k then (k, v) else kv)
  else d ++ [(k, v)]

/-- Python `d.update(u)`: assign every binding of `u` into `d`, in order. -/
def dictUpdate (d u : Dict) : Dict :=
  u.foldl (fun acc kv => dictSet acc kv.1 kv.2) d

/-- Python `d.pop(k)` (no default): the popped value and the remaining
dictionary, or `none` (a `KeyError`) when the key is absent.  On
unique-key dictionaries removing every binding of `k` agrees with
Python removal of the single binding. -/
def dictPop (d : Dict) (k : String) : Option (String × Dict) :=
  match dictGet d k with
  | none => none
  | some v => some (v, d.filter (fun kv => !(kv.1 == k)))

/-- The kind of Python exception a statement raises. -/
inductive PyError where
  | assertionError
  | valueError
  | typeError
  | keyError
  | attributeError
deriving Repr, DecidableEq

/-- An opaque Python object passed as a status callback: either
invocable or not, with an identity.  `callable` is Python `callable`. -/
inductive PyObject where
  | callableObj (oid : Nat)
  | plainObj (oid : Nat)
deriving Repr, DecidableEq

/-- Python `callable`. -/
def callable : PyObject → Bool
  | PyObject.callableObj _ => true
  | PyObject.plainObj _ => false

/-- The mutable state of an `APIRequestFuture` instance.  `future` is
the identity of the underlying `concurrent.futures.Future` handle
(`self._future`); times are microsecond instants. -/
structure APIRequestFuture where
  messages : List String
  request : Dict
  status : String
  id : Option String
  target : String
  code : Option String
  href : Option String
  size : Option String
  type : Option String
  start_time : Nat
  end_time : Option Nat
  status_callbacks : List PyObject
  elapsed_log : List (String × Nat)
  future : Nat
deriving Repr, DecidableEq

/-- The `elapsed` property: `end_time - start_time` when finalized,
else `now - start_time`. -/
def APIRequestFuture.elapsed (t : APIRequestFuture) (now : Nat) : Nat :=
  (match t.end_time with | none => now | some e => e) - t.start_time

/-- An invocation of a status callback with the task passed to it. -/
abbrev CallbackEvent := PyObject × APIRequestFuture

/-- `_write_log`: append the messages to the in-memory log (the log
file, when open, mirrors this list). -/
def write_log (t : APIRequestFuture) (msgs : List String) : APIRequestFuture :=
  { t with messages := t.messages ++ msgs }

/-- The `status` property setter: store the new status, record the
elapsed time of the change, then call every registered callback in
order with the future as argument. -/
def set_status (t : APIRequestFuture) (now : Nat) (v : String) : APIRequestFuture × List CallbackEvent :=
  let t1 := { t with status := v }
  let t2 := { t1 with elapsed_log := t1.elapsed_log ++ [(v, t1.elapsed now)] }
  (t2, t2.status_callbacks.map (fun cb => (cb, t2)))

/-- `add_status_callback`: raise `TypeError` on a non-invocable
argument, else append it to the callback list. -/
def add_status_callback (t : APIRequestFuture) (fn : PyObject) : APIRequestFuture × Option PyError :=
  if !(callable fn) then (t, some PyError.typeError)
  else ({ t with status_callbacks := t.status_callbacks ++ [fn] }, none)

/-- `_recv`: process one progress line from the remote collaborator. -/
def recv (t : APIRequestFuture) (now : Nat) (msg : String) : APIRequestFuture × List CallbackEvent :=
  let r1 :=
    if strStartsWith msg "Request is " then set_status t now (strTrim (strDrop msg 11))
    else (t, [])
  let t2 :=
    if strStartsWith msg "Request id: " then { r1.1 with id := some (strTrim (strDrop msg 12)) }
    else r1.1
  (write_log t2 [msg], r1.2)

/-- The result payload returned by the remote collaborator on success:
a dictionary that may carry `href`, `size`, `type` and `messages`.
The optional fields model `result[k] if k in result else None`. -/
structure ResultPayload where
  href : Option String
  size : Option String
  type : Option String
  messages : Option (List String)
deriving Repr, DecidableEq

/-- The outcome carried by the wrapped future when it completes. -/
inductive Outcome where
  | cancelled
  | exn (message : String)
  | success (result : ResultPayload)
deriving Repr, DecidableEq

/-- Python `str.format` of a nullable value. -/
def pyFormatOpt (v : Option String) : String :=
  match v with | none => "None" | some s => s

/-- Division rounded to the nearest integer, ties to even: the
rounding applied by Python float formatting on exact values. -/
def roundHalfEvenDiv (a b : Nat) : Nat :=
  let q := a / b
  let r := a % b
  if 2 * r < b then q
  else if b < 2 * r then q + 1
  else if q % 2 == 0 then q else q + 1

/-- Two-digit zero padding of the fractional part. -/
def pad2 (n : Nat) : String :=
  if n < 10 then "0" ++ toString n else toString n

/-- The two-decimal minute rendering of a microsecond duration:
Python `"0:.2f".format(elapsed / timedelta(minutes=1))` on the exact
rational value. -/
def fmtTwoDec (micro : Nat) : String :=
  let c := roundHalfEvenDiv (micro * 100) 60000000
  toString (c / 100) ++ "." ++ pad2 (c % 100)

/-- One line of the elapsed summary written by `_done_callback`. -/
def fmtElapsedLine (entry : String × Nat) : String :=
  fmtTwoDec entry.2 ++ " min to " ++ entry.1

/-- `_done_callback`: set `end_time`, branch on the outcome of the
wrapped future, then write the elapsed summary. -/
def done_callback (t : APIRequestFuture) (now : Nat) (outcome : Outcome) : APIRequestFuture × List CallbackEvent :=
  let t0 := { t with end_time := some now }
  let r1 :=
    match outcome with
    | Outcome.cancelled => set_status t0 now "cancelled"
    | Outcome.exn e =>
      let ra := set_status t0 now "error"
      (write_log ra.1 ["=== ERROR ===", e], ra.2)
    | Outcome.success r =>
      let ta := { t0 with href := r.href, size := r.size, type := r.type }
      let tb :=
        match r.messages with
        | some ms => write_log ta ("=== MARS ===" :: ms)
        | none => ta
      let tc := write_log tb
        ["=== OUTPUT ===",
         "href: " ++ pyFormatOpt r.href,
         "size: " ++ pyFormatOpt r.size,
         "type: " ++ pyFormatOpt r.type]
      (tc, [])
  let t2 := write_log r1.1 ["=== ELAPSED ==="]
  let t3 := write_log t2 (r1.1.elapsed_log.map fmtElapsedLine)
  (t3, r1.2)

/-- A side effect on the worker pool: submitting the blocking closure
that will forward `request` (the merged description with `target`
removed) to the remote collaborator at `service`. -/
inductive PoolEffect where
  | submit (service : String) (request : Dict) (target : String)
deriving Repr, DecidableEq

/-- The successful result of `APIRequestFuture.__init__`: the
constructed state and the submissions made to the worker pool. -/
structure InitOk where
  task : APIRequestFuture
  effects : List PoolEffect
deriving Repr, DecidableEq

/-- The field values assigned by `APIRequestFuture.__init__` before
the work is submitted: empty logs, status `waiting`, no identifier,
and the result fields null. -/
def initialTask (req : Dict) (target : String) (start_time future_handle : Nat) :
    APIRequestFuture :=
  { messages := [], request := req, status := "waiting", id := none, target := target,
    code := none, href := none, size := none, type := none, start_time := start_time,
    end_time := none, status_callbacks := [], elapsed_log := [], future := future_handle }

/-- `APIRequestFuture.__init__`: pop `target` from the request (a
`KeyError` when absent), register the optional status callback (a
`TypeError` when not invocable), then submit the blocking closure to
the pool.  A raise leaves the pool untouched, since the statement
order is pop, register, submit. -/
def APIRequestFuture_init (service : String) (request : Dict)
    (status_callback : Option PyObject) (start_time : Nat) (future_handle : Nat) :
    Except PyError InitOk :=
  match dictPop request "target" with
  | none => Except.error PyError.keyError
  | some vr =>
    let base : APIRequestFuture := initialTask vr.2 vr.1 start_time future_handle
    let registered :=
      match status_callback with
      | none => Except.ok base
      | some cb =>
        match add_status_callback base cb with
        | (_, some e) => Except.error e
        | (t1, none) => Except.ok t1
    match registered with
    | Except.error e => Except.error e
    | Except.ok t1 =>
      Except.ok { task := t1, effects := [PoolEffect.submit service vr.2 vr.1] }

/-- `ECMWFDataServer.retrieve`, lines 80 to 87: assert that `dataset`
and `service` are not both present, derive the service address from
whichever is present, and raise `ValueError` when neither is. -/
def deriveServiceE (request_dct : Dict) : Except PyError String :=
  if dictMember request_dct "dataset" && dictMember request_dct "service" then
    Except.error PyError.assertionError
  else
    let service : Option String := none
    let service :=
      match dictGet request_dct "dataset" with
      | some v => some ("datasets/" ++ v)
      | none => service
    let service :=
      match dictGet request_dct "service" with
      | some v => some ("services/" ++ v)
      | none => service
    match service with
    | none => Except.error PyError.valueError
    | some s => Except.ok s

/-- The merged request description built at the top of
`ECMWFDataServer.retrieve`: a copy of the pool defaults updated with
the per-call request when one is given. -/
def request_dct (defaults : Dict) (request : Option Dict) : Dict :=
  match request with
  | none => defaults
  | some r => dictUpdate defaults r

/-- The successful result of `ECMWFDataServer.retrieve`. -/
structure RetrieveOk where
  service : String
  task : APIRequestFuture
  effects : List PoolEffect
deriving Repr, DecidableEq

/-- `ECMWFDataServer.retrieve`: merge defaults with the request,
derive the service address, then construct the future (which submits
the work).  `start_time` and `future_handle` stand for the clock
reading and the handle returned by the pool. -/
def retrieve (defaults : Dict) (request : Option Dict) (status_callback : Option PyObject)
    (start_time : Nat) (future_handle : Nat) : Except PyError RetrieveOk :=
  let d := request_dct defaults request
  match deriveServiceE d with
  | Except.error e => Except.error e
  | Except.ok service =>
    match APIRequestFuture_init service d status_callback start_time future_handle with
    | Except.error e => Except.error e
    | Except.ok r => Except.ok { service := service, task := r.task, effects := r.effects }

/-- Modelled from the spec: the underlying handle is a
`concurrent.futures.Future` of the standard library (an external
collaborator, see the spec's worker-pool contract).  Its interface
defines these attribute names — in particular the method `running` —
and defines no attribute named `_running`. -/
def future_attrs : List String :=
  ["cancel", "cancelled", "running", "done", "result", "exception",
   "add_done_callback", "set_running_or_notify_cancel", "set_result",
   "set_exception"]

/-- The observable state of the underlying handle needed by the
`running` query. -/
structure FutureState where
  is_running : Bool
deriving Repr, DecidableEq

/-- `APIRequestFuture.running`: evaluate `self._future._running()`.
Looking up an attribute the handle does not define raises
`AttributeError`. -/
def APIRequestFuture_running (fs : FutureState) : Except PyError Bool :=
  if future_attrs.contains "_running" then Except.ok fs.is_running
  else Except.error PyError.attributeError

/-- The value of the one-shot handle-to-task dictionary built by
`wait` and `as_completed` at a handle: comprehension semantics keep
the value of the last element with that key. -/
def lookupLast (fs : List APIRequestFuture) (h : Nat) : Option APIRequestFuture :=
  fs.reverse.find? (fun f => f.future == h)

/-- The module-level `wait`: build the handle-to-task dictionary once,
wait on the handles (modelled by the completion snapshot `is_done`),
and map the two returned handle sets back to tasks.  The dictionary
key sequence keeps first occurrences (`dedup`). -/
def waitModel (fs : List APIRequestFuture) (is_done : Nat → Bool) :
    List APIRequestFuture × List APIRequestFuture :=
  let keys := (fs.map (fun f => f.future)).dedup
  ((keys.filter is_done).filterMap (lookupLast fs),
   (keys.filter (fun h => !(is_done h))).filterMap (lookupLast fs))

/-- A key demanded absent by `dictMember` has no stored value. -/
theorem dictMember_false_get (d : Dict) (k : String) (h : dictMember d k = false) :
    dictGet d k = none := by
  unfold dictMember at h
  cases hg : dictGet d k with
  | none => rfl
  | some v => rw [hg] at h; simp at h

/-- A key demanded present by `dictMember` has a stored value. -/
theorem dictMember_true_get (d : Dict) (k : String) (h : dictMember d k = true) :
    ∃ v, dictGet d k = some v := by
  unfold dictMember at h
  cases hg : dictGet d k with
  | none => rw [hg] at h; simp at h
  | some v => exact ⟨v, rfl⟩

/-- After filtering out every binding of a key, the key is absent. -/
theorem dictMember_filter_out (d : Dict) (k : String) :
    dictMember (d.filter (fun kv => !(kv.1 == k))) k = false := by
  have hfind : (d.filter (fun kv => !(kv.1 == k))).find? (fun kv => kv.1 == k) = none := by
    rw [List.find?_eq_none]
    intro x hx
    have hxp := (List.mem_filter.mp hx).2
    simp only [Bool.not_eq_eq_eq_not, Bool.not_true] at hxp
    simp [hxp]
  simp [dictMember, dictGet, hfind]

/-- A concrete task state used to instantiate the theorems at
explicit inputs. -/
def sampleTask (status : String) (handle : Nat) : APIRequestFuture :=
  { messages := [], request := [], status := status, id := none, target := "out.bin",
    code := none, href := none, size := none, type := none, start_time := 0,
    end_time := none, status_callbacks := [], elapsed_log := [], future := handle }

/-- C4: every assignment through the status setter stores the new
status, appends exactly one `(status, elapsed)` pair to the elapsed
log, and invokes all registered callbacks, in registration order,
passing the task itself (the updated state) as the argument. -/
theorem set_status_appends_and_notifies (t : APIRequestFuture) (now : Nat) (v : String) :
    (set_status t now v).1.status = v ∧
    (set_status t now v).1.elapsed_log = t.elapsed_log ++ [(v, t.elapsed now)] ∧
    (set_status t now v).2 =
      t.status_callbacks.map (fun cb => (cb, (set_status t now v).1)) ∧
    (set_status t now v).2.map Prod.fst = t.status_callbacks := by
  refine ⟨rfl, rfl, rfl, ?_⟩
  simp [set_status, Function.comp_def]

/-- C8: registering a non-invocable object as a status callback fails
with the `TypeError` kind (the error the spec names `InvalidArgument`)
and leaves the task, in particular its callback list, unchanged;
registering an invocable object succeeds and appends it. -/
theorem add_status_callback_behavior (t : APIRequestFuture) (fn : PyObject) :
    (callable fn = false →
      add_status_callback t fn = (t, some PyError.typeError)) ∧
    (callable fn = true →
      add_status_callback t fn =
        ({ t with status_callbacks := t.status_callbacks ++ [fn] }, none)) := by
  constructor <;> intro h <;> simp [add_status_callback, h]

/-- C8 witness: a concrete non-invocable object is rejected with the
callback list unchanged, and a concrete invocable one is appended. -/
theorem add_status_callback_behavior_witness :
    callable (PyObject.plainObj 7) = false ∧
    add_status_callback (sampleTask "waiting" 0) (PyObject.plainObj 7) =
      (sampleTask "waiting" 0, some PyError.typeError) :=
  ⟨rfl, (add_status_callback_behavior (sampleTask "waiting" 0) (PyObject.plainObj 7)).1 rfl⟩

/-- C9: the `running` query never returns a boolean: the handle
defines a `running` method but no `_running` attribute, so the body
`self._future._running()` always raises `AttributeError`. -/
theorem running_always_raises (fs : FutureState) :
    future_attrs.contains "running" = true ∧
    future_attrs.contains "_running" = false ∧
    APIRequestFuture_running fs = Except.error PyError.attributeError :=
  ⟨by decide, by decide, rfl⟩

/-- C3 (amended): a received progress line of the form
"Request is X" sets the status to X trimmed (not lower-cased); a line
of the form "Request id: I" sets the identifier to I trimmed without a
status transition, elapsed-log entry, or callback invocation; every
line, recognized or not, is appended to the message log; lines of
neither form change nothing but the message log. -/
theorem recv_line_handling (t : APIRequestFuture) (now : Nat) (msg : String) :
    ((recv t now msg).1.status =
      if strStartsWith msg "Request is " then strTrim (strDrop msg 11) else t.status) ∧
    ((recv t now msg).1.id =
      if strStartsWith msg "Request id: " then some (strTrim (strDrop msg 12)) else t.id) ∧
    ((recv t now msg).1.messages = t.messages ++ [msg]) ∧
    ((recv t now msg).1.elapsed_log =
      if strStartsWith msg "Request is "
      then t.elapsed_log ++ [(strTrim (strDrop msg 11), t.elapsed now)]
      else t.elapsed_log) ∧
    ((recv t now msg).2.map Prod.fst =
      if strStartsWith msg "Request is " then t.status_callbacks else []) := by
  cases h1 : strStartsWith msg "Request is " <;>
    cases h2 : strStartsWith msg "Request id: " <;>
      simp [recv, set_status, write_log, APIRequestFuture.elapsed, h1, h2,
        Function.comp_def]

/-- C3 counterexample: the status taken from a progress line is not
lower-cased; the line "Request is QUEUED" yields status "QUEUED",
not "queued". -/
theorem recv_no_lowercasing_cex :
    (recv (sampleTask "active" 0) 0 "Request is QUEUED").1.status = "QUEUED" ∧
    ("QUEUED" : String) ≠ "queued" :=
  ⟨by decide, by decide⟩

/-- C2 (amended): a progress line of the form "Request is X" received
while the status is terminal (`complete`, `cancelled` or `error`)
still overwrites the status with X trimmed: the handler has no
terminal-state guard, so terminal states are not absorbing. -/
theorem recv_status_line_overwrites_terminal (t : APIRequestFuture) (now : Nat) (msg : String)
    (hterm : t.status = "complete" ∨ t.status = "cancelled" ∨ t.status = "error")
    (hmsg : strStartsWith msg "Request is " = true) :
    (recv t now msg).1.status = strTrim (strDrop msg 11) := by
  cases h2 : strStartsWith msg "Request id: " <;>
    simp [recv, set_status, write_log, hmsg, h2]

/-- C2 witness: the amended theorem applied to a concrete task in the
terminal status `complete` receiving "Request is queued". -/
theorem recv_status_line_overwrites_terminal_witness :
    ((sampleTask "complete" 0).status = "complete" ∨
      (sampleTask "complete" 0).status = "cancelled" ∨
      (sampleTask "complete" 0).status = "error") ∧
    strStartsWith "Request is queued" "Request is " = true ∧
    (recv (sampleTask "complete" 0) 0 "Request is queued").1.status =
      strTrim (strDrop "Request is queued" 11) :=
  ⟨Or.inl rfl, by decide,
    recv_status_line_overwrites_terminal (sampleTask "complete" 0) 0 "Request is queued"
      (Or.inl rfl) (by decide)⟩

/-- C2 counterexample: a task whose status is the terminal value
`complete` receives the progress line "Request is queued" and its
status changes to `queued`. -/
theorem recv_terminal_not_absorbing_cex :
    (sampleTask "complete" 0).status = "complete" ∧
    (recv (sampleTask "complete" 0) 0 "Request is queued").1.status = "queued" ∧
    ("queued" : String) ≠ "complete" :=
  ⟨rfl, by decide, by decide⟩

/-- C6 (amended): when the wrapped future finishes successfully with
payload r, finalization sets `end_time`, copies `href`/`size`/`type`
from r with absent keys mapping to null (never raising), appends the
result-attached messages under a MARS header when present, appends the
OUTPUT section, and appends an ELAPSED summary with one two-decimal
minute line per elapsed-log entry, oldest transition first; the status
field is not modified by the success branch (no transition to
`complete` happens here) and no callback is invoked. -/
theorem done_callback_success_behavior (t : APIRequestFuture) (now : Nat) (r : ResultPayload) :
    ((done_callback t now (Outcome.success r)).1.status = t.status) ∧
    ((done_callback t now (Outcome.success r)).1.href = r.href) ∧
    ((done_callback t now (Outcome.success r)).1.size = r.size) ∧
    ((done_callback t now (Outcome.success r)).1.type = r.type) ∧
    ((done_callback t now (Outcome.success r)).1.end_time = some now) ∧
    ((done_callback t now (Outcome.success r)).1.elapsed_log = t.elapsed_log) ∧
    ((done_callback t now (Outcome.success r)).1.messages =
      t.messages
        ++ (match r.messages with | some ms => "=== MARS ===" :: ms | none => [])
        ++ ["=== OUTPUT ===",
            "href: " ++ pyFormatOpt r.href,
            "size: " ++ pyFormatOpt r.size,
            "type: " ++ pyFormatOpt r.type,
            "=== ELAPSED ==="]
        ++ t.elapsed_log.map fmtElapsedLine) ∧
    ((done_callback t now (Outcome.success r)).2 = []) := by
  cases hm : r.messages <;>
    simp [done_callback, write_log, hm]

/-- C6 counterexample: a task still in status `active` whose work
finishes successfully keeps status `active`: the success branch of
`_done_callback` never sets the status to `complete`. -/
theorem done_callback_success_no_complete_cex :
    ((done_callback (sampleTask "active" 0) 60000000
        (Outcome.success { href := some "h", size := none, type := none, messages := none })).1.status
      = "active") ∧
    ("active" : String) ≠ "complete" :=
  ⟨by decide, by decide⟩

/-- C1 (amended): the router derives exactly one service address when
exactly one addressing field is present (a dataset-prefixed or
service-prefixed address); supplying both fields fails, but with an
`AssertionError` (the `assert` statement), while supplying neither
fails with a `ValueError` — two different error kinds, not one. -/
theorem retrieve_address_trichotomy (defaults : Dict) (request : Option Dict)
    (cb : Option PyObject) (st fh : Nat) :
    (dictMember (request_dct defaults request) "dataset" = true →
      dictMember (request_dct defaults request) "service" = true →
      retrieve defaults request cb st fh = Except.error PyError.assertionError) ∧
    (dictMember (request_dct defaults request) "dataset" = false →
      dictMember (request_dct defaults request) "service" = false →
      retrieve defaults request cb st fh = Except.error PyError.valueError) ∧
    (∀ v, dictGet (request_dct defaults request) "dataset" = some v →
      dictMember (request_dct defaults request) "service" = false →
      deriveServiceE (request_dct defaults request) = Except.ok ("datasets/" ++ v)) ∧
    (∀ v, dictGet (request_dct defaults request) "service" = some v →
      dictMember (request_dct defaults request) "dataset" = false →
      deriveServiceE (request_dct defaults request) = Except.ok ("services/" ++ v)) := by
  refine ⟨?_, ?_, ?_, ?_⟩
  · intro h1 h2
    simp [retrieve, deriveServiceE, h1, h2]
  · intro h1 h2
    have g1 := dictMember_false_get _ _ h1
    have g2 := dictMember_false_get _ _ h2
    simp [retrieve, deriveServiceE, h1, h2, g1, g2]
  · intro v hv hs
    have g2 := dictMember_false_get _ _ hs
    have h1 : dictMember (request_dct defaults request) "dataset" = true := by
      simp [dictMember, hv]
    simp [deriveServiceE, h1, hs, hv, g2]
  · intro v hv hd
    have g1 := dictMember_false_get _ _ hd
    have h2 : dictMember (request_dct defaults request) "service" = true := by
      simp [dictMember, hv]
    simp [deriveServiceE, h2, hd, hv, g1]

/-- C1 witness: the amended theorem applied to a merged request that
carries both addressing fields, which fails with `AssertionError`. -/
theorem retrieve_address_trichotomy_witness :
    dictMember (request_dct [] (some [("dataset", "a"), ("service", "b"), ("target", "t")]))
      "dataset" = true ∧
    dictMember (request_dct [] (some [("dataset", "a"), ("service", "b"), ("target", "t")]))
      "service" = true ∧
    retrieve [] (some [("dataset", "a"), ("service", "b"), ("target", "t")]) none 0 0 =
      Except.error PyError.assertionError :=
  ⟨by decide, by decide,
    (retrieve_address_trichotomy [] (some [("dataset", "a"), ("service", "b"), ("target", "t")])
        none 0 0).1 (by decide) (by decide)⟩

/-- C1 counterexample: supplying both addressing fields and supplying
neither fail with different error kinds (`AssertionError` from the
assert statement against `ValueError` from the explicit raise), so
they are not failures of one shared kind. -/
theorem retrieve_error_kinds_differ_cex :
    retrieve [] (some [("dataset", "a"), ("service", "b"), ("target", "t")]) none 0 0 =
      Except.error PyError.assertionError ∧
    retrieve [] (some [("target", "t")]) none 0 0 = Except.error PyError.valueError ∧
    PyError.assertionError ≠ PyError.valueError :=
  ⟨rfl, rfl, by decide⟩

/-- C5: for a merged request with exactly one addressing field and a
`target` field, retrieve succeeds with the address formed from the
present field, and the `target` binding is removed from the request
before the work item forwarding it to the remote collaborator is
submitted, so the forwarded payload never contains `target`. -/
theorem retrieve_derives_address_and_pops_target (defaults : Dict) (request : Option Dict)
    (st fh : Nat) :
    (∀ v, dictGet (request_dct defaults request) "dataset" = some v →
      dictMember (request_dct defaults request) "service" = false →
      dictMember (request_dct defaults request) "target" = true →
      ∃ r, retrieve defaults request none st fh = Except.ok r ∧
        r.service = "datasets/" ++ v ∧
        dictMember r.task.request "target" = false ∧
        r.effects = [PoolEffect.submit r.service r.task.request r.task.target]) ∧
    (∀ v, dictGet (request_dct defaults request) "service" = some v →
      dictMember (request_dct defaults request) "dataset" = false →
      dictMember (request_dct defaults request) "target" = true →
      ∃ r, retrieve defaults request none st fh = Except.ok r ∧
        r.service = "services/" ++ v ∧
        dictMember r.task.request "target" = false ∧
        r.effects = [PoolEffect.submit r.service r.task.request r.task.target]) := by
  constructor
  · intro v hv hs ht
    obtain ⟨w, hw⟩ := dictMember_true_get _ _ ht
    have g2 := dictMember_false_get _ _ hs
    have hret : retrieve defaults request none st fh = Except.ok
        { service := "datasets/" ++ v,
          task := initialTask
            ((request_dct defaults request).filter (fun kv => !(kv.1 == "target"))) w st fh,
          effects := [PoolEffect.submit ("datasets/" ++ v)
            ((request_dct defaults request).filter (fun kv => !(kv.1 == "target"))) w] } := by
      simp [retrieve, deriveServiceE, APIRequestFuture_init, dictPop, dictMember, hv, g2, hw]
    exact ⟨_, hret, rfl, dictMember_filter_out (request_dct defaults request) "target", rfl⟩
  · intro v hv hd ht
    obtain ⟨w, hw⟩ := dictMember_true_get _ _ ht
    have g1 := dictMember_false_get _ _ hd
    have hret : retrieve defaults request none st fh = Except.ok
        { service := "services/" ++ v,
          task := initialTask
            ((request_dct defaults request).filter (fun kv => !(kv.1 == "target"))) w st fh,
          effects := [PoolEffect.submit ("services/" ++ v)
            ((request_dct defaults request).filter (fun kv => !(kv.1 == "target"))) w] } := by
      simp [retrieve, deriveServiceE, APIRequestFuture_init, dictPop, dictMember, hv, g1, hw]
    exact ⟨_, hret, rfl, dictMember_filter_out (request_dct defaults request) "target", rfl⟩

/-- C5 witness: the spec scenario request with dataset X and target
out.bin resolves to the address datasets/X and forwards a payload
without `target`. -/
theorem retrieve_derives_address_and_pops_target_witness :
    dictGet (request_dct [] (some [("dataset", "X"), ("target", "out.bin")])) "dataset" =
      some "X" ∧
    dictMember (request_dct [] (some [("dataset", "X"), ("target", "out.bin")])) "service" =
      false ∧
    dictMember (request_dct [] (some [("dataset", "X"), ("target", "out.bin")])) "target" =
      true ∧
    ∃ r, retrieve [] (some [("dataset", "X"), ("target", "out.bin")]) none 0 0 =
        Except.ok r ∧
      r.service = "datasets/" ++ "X" ∧
      dictMember r.task.request "target" = false ∧
      r.effects = [PoolEffect.submit r.service r.task.request r.task.target] :=
  ⟨by decide, by decide, by decide,
    (retrieve_derives_address_and_pops_target [] (some [("dataset", "X"), ("target", "out.bin")])
        0 0).1 "X" (by decide) (by decide) (by decide)⟩

/-- C10: a merged request with exactly one addressing field but no
`target` field makes retrieve fail with a `KeyError` while the future
is being constructed (the `pop` of `target`), so no successful result
and no pool submission is produced. -/
theorem retrieve_missing_target_keyerror (defaults : Dict) (request : Option Dict)
    (cb : Option PyObject) (st fh : Nat)
    (hone : dictMember (request_dct defaults request) "dataset" ≠
      dictMember (request_dct defaults request) "service")
    (ht : dictMember (request_dct defaults request) "target" = false) :
    retrieve defaults request cb st fh = Except.error PyError.keyError := by
  have gt := dictMember_false_get _ _ ht
  cases hd : dictMember (request_dct defaults request) "dataset" with
  | true =>
    have hs : dictMember (request_dct defaults request) "service" = false := by
      cases hs2 : dictMember (request_dct defaults request) "service" with
      | true => rw [hd, hs2] at hone; exact absurd rfl hone
      | false => rfl
    obtain ⟨v, hv⟩ := dictMember_true_get _ _ hd
    have g2 := dictMember_false_get _ _ hs
    simp [retrieve, deriveServiceE, APIRequestFuture_init, dictPop, hv, g2, gt, hd, hs]
  | false =>
    have hs : dictMember (request_dct defaults request) "service" = true := by
      cases hs2 : dictMember (request_dct defaults request) "service" with
      | true => rfl
      | false => rw [hd, hs2] at hone; exact absurd rfl hone
    obtain ⟨v, hv⟩ := dictMember_true_get _ _ hs
    have g1 := dictMember_false_get _ _ hd
    simp [retrieve, deriveServiceE, APIRequestFuture_init, dictPop, hv, g1, gt, hd, hs]

/-- C10 witness: a concrete request with a dataset field and no
target fails with `KeyError`. -/
theorem retrieve_missing_target_keyerror_witness :
    dictMember (request_dct [] (some [("dataset", "a")])) "dataset" ≠
      dictMember (request_dct [] (some [("dataset", "a")])) "service" ∧
    dictMember (request_dct [] (some [("dataset", "a")])) "target" = false ∧
    retrieve [] (some [("dataset", "a")]) none 0 0 = Except.error PyError.keyError :=
  ⟨by decide, by decide,
    retrieve_missing_target_keyerror [] (some [("dataset", "a")]) none 0 0
      (by decide) (by decide)⟩

/-- A task returned by the handle-to-task lookup belongs to the input
collection and owns the looked-up handle. -/
theorem lookupLast_mem (fs : List APIRequestFuture) (h : Nat) (g : APIRequestFuture)
    (hg : lookupLast fs h = some g) : g ∈ fs ∧ g.future = h := by
  unfold lookupLast at hg
  refine ⟨List.mem_reverse.mp (List.mem_of_find?_eq_some hg), ?_⟩
  have := List.find?_some hg
  simpa using this

/-- With pairwise distinct handles, looking up the handle of a task in
the input collection returns that very task. -/
theorem lookupLast_self (fs : List APIRequestFuture)
    (hnd : (fs.map (fun f => f.future)).Nodup) (g : APIRequestFuture) (hg : g ∈ fs) :
    lookupLast fs g.future = some g := by
  cases hfind : lookupLast fs g.future with
  | none =>
    exfalso
    unfold lookupLast at hfind
    rw [List.find?_eq_none] at hfind
    exact hfind g (List.mem_reverse.mpr hg) (by simp)
  | some g2 =>
    obtain ⟨hmem, hfut⟩ := lookupLast_mem fs g.future g2 hfind
    have heq : g2 = g := List.inj_on_of_nodup_map hnd hmem hg hfut
    rw [heq]

/-- Membership in the done part returned by `wait`. -/
theorem waitModel_done_mem (fs : List APIRequestFuture) (is_done : Nat → Bool)
    (hnd : (fs.map (fun f => f.future)).Nodup) (g : APIRequestFuture) :
    g ∈ (waitModel fs is_done).1 ↔ g ∈ fs ∧ is_done g.future = true := by
  unfold waitModel
  simp only [List.mem_filterMap, List.mem_filter, List.mem_dedup, List.mem_map]
  constructor
  · rintro ⟨h, ⟨hmem, hdone⟩, hlook⟩
    obtain ⟨hgmem, hgfut⟩ := lookupLast_mem fs h g hlook
    exact ⟨hgmem, by rw [hgfut]; exact hdone⟩
  · rintro ⟨hgmem, hdone⟩
    exact ⟨g.future, ⟨⟨g, hgmem, rfl⟩, hdone⟩, lookupLast_self fs hnd g hgmem⟩

/-- Membership in the not-done part returned by `wait`. -/
theorem waitModel_not_done_mem (fs : List APIRequestFuture) (is_done : Nat → Bool)
    (hnd : (fs.map (fun f => f.future)).Nodup) (g : APIRequestFuture) :
    g ∈ (waitModel fs is_done).2 ↔ g ∈ fs ∧ is_done g.future = false := by
  unfold waitModel
  simp only [List.mem_filterMap, List.mem_filter, List.mem_dedup, List.mem_map]
  constructor
  · rintro ⟨h, ⟨hmem, hdone⟩, hlook⟩
    obtain ⟨hgmem, hgfut⟩ := lookupLast_mem fs h g hlook
    refine ⟨hgmem, ?_⟩
    rw [hgfut]
    simpa using hdone
  · rintro ⟨hgmem, hdone⟩
    exact ⟨g.future, ⟨⟨g, hgmem, rfl⟩, by simp [hdone]⟩, lookupLast_self fs hnd g hgmem⟩

/-- C7: over a finite collection of tasks with pairwise distinct
underlying handles, `wait` returns two collections of the input tasks
that partition the input — every input task lands in exactly one of
the two — and a task is in the done part exactly when its own handle
was reported done, the handle-to-task map being the one dictionary
built at the start of the call. -/
theorem wait_partitions (fs : List APIRequestFuture) (is_done : Nat → Bool)
    (hnd : (fs.map (fun f => f.future)).Nodup) (g : APIRequestFuture) :
    (g ∈ (waitModel fs is_done).1 ↔ g ∈ fs ∧ is_done g.future = true) ∧
    (g ∈ (waitModel fs is_done).2 ↔ g ∈ fs ∧ is_done g.future = false) ∧
    (g ∈ fs ↔ g ∈ (waitModel fs is_done).1 ∨ g ∈ (waitModel fs is_done).2) ∧
    ¬(g ∈ (waitModel fs is_done).1 ∧ g ∈ (waitModel fs is_done).2) := by
  have hd := waitModel_done_mem fs is_done hnd g
  have hn := waitModel_not_done_mem fs is_done hnd g
  refine ⟨hd, hn, ?_, ?_⟩
  · constructor
    · intro hg
      cases hdone : is_done g.future with
      | true => exact Or.inl (hd.mpr ⟨hg, hdone⟩)
      | false => exact Or.inr (hn.mpr ⟨hg, hdone⟩)
    · intro hg
      cases hg with
      | inl h => exact (hd.mp h).1
      | inr h => exact (hn.mp h).1
  · rintro ⟨h1, h2⟩
    have e1 := (hd.mp h1).2
    have e2 := (hn.mp h2).2
    rw [e1] at e2
    exact Bool.noConfusion e2

/-- C7 witness: the theorem applied to two concrete tasks with
distinct handles, of which exactly the first is done. -/
theorem wait_partitions_witness :
    (([sampleTask "active" 1, sampleTask "queued" 2].map (fun f => f.future)).Nodup) ∧
    (sampleTask "active" 1 ∈
        (waitModel [sampleTask "active" 1, sampleTask "queued" 2] (fun h => h == 1)).1 ↔
      sampleTask "active" 1 ∈ [sampleTask "active" 1, sampleTask "queued" 2] ∧
        (fun h => h == 1) (sampleTask "active" 1).future = true) :=
  ⟨by decide,
    (wait_partitions [sampleTask "active" 1, sampleTask "queued" 2] (fun h => h == 1)
        (by decide) (sampleTask "active" 1)).1⟩
